import Mathlib

/-!
# Chronoscope — shallow embedding and verification

A shallow embedding of the chronoscope repository (epoch table, parameter
interpolator, visual transformation pipeline, soundscape generator), with
theorems settling the specification claims against it.

Numeric conventions: Python floats are modelled as `ℚ` (exact rational
arithmetic); 8-bit image channels are `ℤ` values produced by clamping to
`[0, 255]` and truncating (`np.clip` followed by `astype(np.uint8)` on
non-negative values is `Int.floor` after clamping).  The one irrational
operation, `np.sqrt` in the vignette stage, is modelled by `Real.sqrt`.
-/

namespace Chronoscope

/-- Visual transformation parameters for an epoch
(`chronoscope/epochs.py`, `VisualParams`). Field order as in the source. -/
structure VisualParams where
  sepia : ℚ
  blur : ℚ
  noise : ℚ
  vignette : ℚ
  saturation : ℚ
  contrast : ℚ
  fade : ℚ
deriving DecidableEq

/-- A temporal layer with its characteristics
(`chronoscope/epochs.py`, `Epoch`). -/
structure Epoch where
  level : ℤ
  name : String
  name_en : String
  period : String
  description : String
  description_en : String
  visual : VisualParams
  soundscape : List String
  soundscape_en : List String
  audio_prompt : String
deriving DecidableEq

/-- `EPOCHS[0]` from `chronoscope/epochs.py`. -/
def epoch0 : Epoch :=
  { level := 0
    name := "Présent"
    name_en := "Present"
    period := "2020-2025"
    description := "Net, couleurs vives, le monde tel qu\x27il est"
    description_en := "Clear, vivid colors, the world as it is"
    visual := { sepia := 0, blur := 0, noise := 0, vignette := 0,
                saturation := 1, contrast := 1, fade := 0 }
    soundscape := ["Trafic urbain moderne", "Notifications de smartphones",
                   "Trottinettes électriques", "Conversations en plusieurs langues"]
    soundscape_en := ["Modern urban traffic", "Smartphone notifications",
                      "Electric scooters", "Multilingual conversations"]
    audio_prompt := "Modern city ambiance with car traffic, smartphone notification sounds, electric scooter whirring, and multilingual street conversations" }

/-- `EPOCHS[1]` from `chronoscope/epochs.py`. -/
def epoch1 : Epoch :=
  { level := 1
    name := "Mémoire récente"
    name_en := "Recent Memory"
    period := "1990-2010"
    description := "Légèrement voilé, teinte de nostalgie"
    description_en := "Slightly veiled, tinted with nostalgia"
    visual := { sepia := 15/100, blur := 1/2, noise := 5/100, vignette := 1/10,
                saturation := 9/10, contrast := 95/100, fade := 5/100 }
    soundscape := ["Moteurs de voitures plus anciens", "Walkman et baladeurs CD",
                   "Cabines téléphoniques", "Sonneries de téléphones fixes"]
    soundscape_en := ["Older car engines", "Walkman and CD players",
                      "Phone booths", "Landline phone ringtones"]
    audio_prompt := "1990s-2000s urban ambiance with older car engines, faint music from portable CD players, phone booth sounds, and rotary phone ringing in distance" }

/-- `EPOCHS[2]` from `chronoscope/epochs.py`. -/
def epoch2 : Epoch :=
  { level := 2
    name := "Génération précédente"
    name_en := "Previous Generation"
    period := "1960-1985"
    description := "Teintes dorées, grain de film argentique"
    description_en := "Golden tints, silver film grain"
    visual := { sepia := 3/10, blur := 1, noise := 12/100, vignette := 2/10,
                saturation := 75/100, contrast := 9/10, fade := 1/10 }
    soundscape := ["Moteurs de 2CV et DS", "Postes de radio à transistors",
                   "Accordéon dans les cafés", "Cloches d\x27églises", "Marchands ambulants"]
    soundscape_en := ["Citroën 2CV and DS engines", "Transistor radios",
                      "Accordion in cafés", "Church bells", "Street vendors"]
    audio_prompt := "1960s-70s French atmosphere with vintage Citroën engines, transistor radio playing chanson française, distant accordion music, church bells, and street vendor calls" }

/-- `EPOCHS[3]` from `chronoscope/epochs.py`. -/
def epoch3 : Epoch :=
  { level := 3
    name := "L\x27entre-deux-guerres"
    name_en := "Interwar Period"
    period := "1920-1955"
    description := "Noir et blanc fantomatique, présences floues"
    description_en := "Ghostly black and white, blurred presences"
    visual := { sepia := 1/2, blur := 3/2, noise := 2/10, vignette := 35/100,
                saturation := 1/2, contrast := 85/100, fade := 2/10 }
    soundscape := ["Sabots de chevaux sur pavés", "Tramways électriques",
                   "Réverbères à gaz qui grésillent", "Crieur de journaux", "Jazz lointain"]
    soundscape_en := ["Horse hooves on cobblestones", "Electric tramways",
                      "Gas street lamps hissing", "Newspaper criers", "Distant jazz music"]
    audio_prompt := "1920s-40s urban soundscape with horse hooves on cobblestones, electric tramway bells, gas lamp hissing, newspaper boy shouting headlines, and distant jazz from a café" }

/-- `EPOCHS[4]` from `chronoscope/epochs.py`. -/
def epoch4 : Epoch :=
  { level := 4
    name := "La Belle Époque"
    name_en := "Belle Époque"
    period := "1880-1914"
    description := "Sépia prononcé, silhouettes en crinolines"
    description_en := "Pronounced sepia, silhouettes in crinolines"
    visual := { sepia := 7/10, blur := 2, noise := 25/100, vignette := 45/100,
                saturation := 3/10, contrast := 8/10, fade := 3/10 }
    soundscape := ["Calèches et fiacres", "Crieurs des rues", "Café-concerts",
                   "Orgues de Barbarie", "Fontaines publiques"]
    soundscape_en := ["Horse-drawn carriages", "Street criers", "Café-concerts",
                      "Barrel organs", "Public fountains"]
    audio_prompt := "1880s-1900s Belle Époque ambiance with horse carriages, street vendors singing their wares, distant café-concert music, barrel organ melody, and fountain splashing" }

/-- `EPOCHS[5]` from `chronoscope/epochs.py`. -/
def epoch5 : Epoch :=
  { level := 5
    name := "Le XIXe siècle"
    name_en := "19th Century"
    period := "1820-1870"
    description := "Image de daguerréotype, dissolution des formes"
    description_en := "Daguerreotype image, dissolving forms"
    visual := { sepia := 85/100, blur := 3, noise := 35/100, vignette := 6/10,
                saturation := 15/100, contrast := 7/10, fade := 45/100 }
    soundscape := ["Travaux haussmanniens", "Forgerons et maréchaux-ferrants",
                   "Cloches multiples", "Chants de travailleurs", "Vent dans les ruelles"]
    soundscape_en := ["Haussmann construction work", "Blacksmiths and farriers",
                      "Multiple church bells", "Workers\x27 songs", "Wind in alleyways"]
    audio_prompt := "Mid-1800s soundscape with distant construction hammering, blacksmith anvil strikes, overlapping church bells, workers singing, and wind whistling through narrow streets" }

/-- `EPOCHS[6]` from `chronoscope/epochs.py`. -/
def epoch6 : Epoch :=
  { level := 6
    name := "Les temps anciens"
    name_en := "Ancient Times"
    period := "Avant 1820"
    description := "Presque invisible, aux limites de la perception"
    description_en := "Almost invisible, at the limits of perception"
    visual := { sepia := 95/100, blur := 5, noise := 1/2, vignette := 75/100,
                saturation := 5/100, contrast := 1/2, fade := 7/10 }
    soundscape := ["Cloches médiévales lointaines", "Marchés anciens",
                   "Vent dans les pierres", "Murmures indistincts", "Silence profond"]
    soundscape_en := ["Distant medieval bells", "Ancient markets", "Wind through stones",
                      "Indistinct murmurs", "Deep silence"]
    audio_prompt := "Pre-1820 ancient atmosphere with very distant medieval church bells, faint market murmurs, wind through old stone buildings, indistinct whispered voices, and profound silence between sounds" }

/-- The `EPOCHS` dictionary (`chronoscope/epochs.py`): a map from integer
levels to epochs, populated for keys 0 through 6.  `EPOCHS n` models
`EPOCHS.get(n)`. -/
def EPOCHS (level : ℤ) : Option Epoch :=
  if level = 0 then some epoch0
  else if level = 1 then some epoch1
  else if level = 2 then some epoch2
  else if level = 3 then some epoch3
  else if level = 4 then some epoch4
  else if level = 5 then some epoch5
  else if level = 6 then some epoch6
  else none

/-- `get_epoch_by_level` (`chronoscope/epochs.py`): `EPOCHS.get(level)`. -/
def get_epoch_by_level (level : ℤ) : Option Epoch :=
  EPOCHS level

/-- Python dictionaries hash numeric keys by value, so looking up `EPOCHS`
with a real-valued key succeeds exactly when the key equals one of the
integer keys.  This models `EPOCHS.get(level)` for a real argument, as
exercised by the spec example `lookup(3.5)`. -/
def get_epoch_by_level_real (level : ℚ) : Option Epoch :=
  if level.den = 1 then EPOCHS level.num else none

/-- `get_epoch_params` (`chronoscope/epochs.py`):
`epoch.visual if epoch else None`. -/
def get_epoch_params (level : ℤ) : Option VisualParams :=
  (EPOCHS level).map Epoch.visual

/-- `EPOCHS[n].visual` as a total function: the Python source indexes
`EPOCHS[lower]` only after clamping `lower` into `[0,6]`, where the key is
always present; the `epoch0` default branch is unreachable there. -/
def epochVisualD (level : ℤ) : VisualParams :=
  ((EPOCHS level).map Epoch.visual).getD epoch0.visual

/-- The local `lerp` of `interpolate_epochs` (`chronoscope/epochs.py`). -/
def lerp (a b t : ℚ) : ℚ := a + (b - a) * t

/-- `interpolate_epochs` (`chronoscope/epochs.py`): clamp the level into
`[0,6]`, truncate to get the lower bracket (`int()` truncates toward zero,
which on the clamped non-negative value is the floor), and linearly
interpolate each field between the bracketing epochs. -/
def interpolate_epochs (level : ℚ) : VisualParams :=
  let clamped : ℚ := max 0 (min 6 level)
  let lower : ℤ := ⌊clamped⌋
  let upper : ℤ := min (lower + 1) 6
  let t : ℚ := clamped - (lower : ℚ)
  let p1 := epochVisualD lower
  let p2 := epochVisualD upper
  { sepia := lerp p1.sepia p2.sepia t
    blur := lerp p1.blur p2.blur t
    noise := lerp p1.noise p2.noise t
    vignette := lerp p1.vignette p2.vignette t
    saturation := lerp p1.saturation p2.saturation t
    contrast := lerp p1.contrast p2.contrast t
    fade := lerp p1.fade p2.fade t }

/-! ## Image model and visual pipeline (`chronoscope/processors/visual.py`) -/

/-- An in-memory bitmap (a PIL `Image` / `uint8` numpy array): width,
height, number of channels, and a pixel map `(x, y, channel) ↦ value`.
Channel values of well-formed images lie in `[0, 255]`. -/
structure Img where
  width : ℕ
  height : ℕ
  channels : ℕ
  pix : ℕ → ℕ → ℕ → ℤ

/-- `np.clip(v, 0, 255)`. -/
def clip255 (v : ℚ) : ℚ := max 0 (min 255 v)

/-- Models `Image.convert("RGB")`: a single-channel (grayscale) image
replicates its channel, a 4-channel (RGBA) image drops the alpha channel. -/
def convertRGB (img : Img) : Img :=
  { width := img.width, height := img.height, channels := 3,
    pix := fun x y c => if img.channels = 1 then img.pix x y 0 else img.pix x y c }

/-- Row `c` of the fixed sepia matrix of `_apply_sepia`. -/
def sepiaRow (c : ℕ) : ℚ × ℚ × ℚ :=
  if c = 0 then (393/1000, 769/1000, 189/1000)
  else if c = 1 then (349/1000, 686/1000, 168/1000)
  else (272/1000, 534/1000, 131/1000)

/-- `_apply_sepia`: per pixel, apply the fixed 3×3 sepia matrix to the RGB
triple (`img_array @ sepia_matrix.T`), clip to `[0, 255]`, blend with the
original by `intensity`, clip again and truncate to `uint8`. -/
def apply_sepia (img : Img) (intensity : ℚ) : Img :=
  { img with pix := fun x y c =>
      let r : ℚ := img.pix x y 0
      let g : ℚ := img.pix x y 1
      let b : ℚ := img.pix x y 2
      let m := sepiaRow c
      let sep : ℚ := clip255 (m.1 * r + m.2.1 * g + m.2.2 * b)
      ⌊clip255 ((img.pix x y c : ℚ) * (1 - intensity) + sep * intensity)⌋ }

/-- Clamp an integer coordinate into `[0, bound - 1]` (index clamping at
the image border, used by the blur model). -/
def clampIdx (bound : ℕ) (t : ℤ) : ℕ := min t.toNat (bound - 1)

/-- Models `_apply_blur`, i.e. PIL's `ImageFilter.GaussianBlur(radius)`:
a size-, mode- and range-preserving convolution.  The exact Gaussian
weights are PIL library internals; they are modelled here as a normalized
box average of side `2⌈radius⌉ + 1` with clamped borders.  No claim
depends on the blurred pixel values, only on the stage's skip condition
and shape preservation. -/
def apply_blur (img : Img) (radius : ℚ) : Img :=
  let k : ℕ := ⌈radius⌉.toNat
  let n : ℕ := 2 * k + 1
  { img with pix := fun x y c =>
      let s : ℤ := ∑ i ∈ Finset.range n, ∑ j ∈ Finset.range n,
        img.pix (clampIdx img.width ((x : ℤ) + i - k)) (clampIdx img.height ((y : ℤ) + j - k)) c
      ⌊clip255 ((s : ℚ) / ((n : ℚ) * n))⌋ }

/-- ITU-R 601-2 luma used by PIL's `"L"` conversion:
`L = (299 R + 587 G + 114 B) / 1000`. -/
def lumaL (r g b : ℚ) : ℚ := (299 * r + 587 * g + 114 * b) / 1000

/-- Models `_apply_saturation`, i.e. `ImageEnhance.Color(image).enhance(factor)`:
blend between the grayscale (luma) version of the image and the original by
`factor` (0 = grayscale, 1 = unchanged), clamped to the channel range. -/
def apply_saturation (img : Img) (factor : ℚ) : Img :=
  { img with pix := fun x y c =>
      let gray : ℚ := lumaL (img.pix x y 0) (img.pix x y 1) (img.pix x y 2)
      ⌊clip255 (gray + ((img.pix x y c : ℚ) - gray) * factor)⌋ }

/-- Mean luma of an image (the degenerate uniform-gray image used by PIL's
contrast enhancer). -/
def meanLuma (img : Img) : ℚ :=
  (∑ x ∈ Finset.range img.width, ∑ y ∈ Finset.range img.height,
    lumaL (img.pix x y 0) (img.pix x y 1) (img.pix x y 2)) /
    ((img.width : ℚ) * img.height)

/-- Models `_apply_contrast`, i.e. `ImageEnhance.Contrast(image).enhance(factor)`:
scale each channel's deviation from the image's mean luminance by `factor`,
clamped to the channel range. -/
def apply_contrast (img : Img) (factor : ℚ) : Img :=
  { img with pix := fun x y c =>
      let mean := meanLuma img
      ⌊clip255 (mean + ((img.pix x y c : ℚ) - mean) * factor)⌋ }

/-- A sampled standard-normal field, one draw per `(x, y, channel)`.
`np.random.normal(0, intensity * 50, shape)` equals `intensity * 50` times
a standard-normal field, so the pipeline takes the field as an explicit
argument to stay deterministic. -/
def NoiseField : Type := ℕ → ℕ → ℕ → ℚ

/-- `_apply_noise`: add Gaussian noise of standard deviation
`intensity * 50` to every channel, clip and truncate to `uint8`. -/
def apply_noise (img : Img) (intensity : ℚ) (η : NoiseField) : Img :=
  { img with pix := fun x y c =>
      ⌊clip255 ((img.pix x y c : ℚ) + intensity * 50 * η x y c)⌋ }

/-- `np.linspace (-1) 1 n` at index `i` (`np.linspace(-1, 1, 1) = [-1]`). -/
def linspace11 (n : ℕ) (i : ℕ) : ℚ :=
  if n ≤ 1 then -1 else -1 + 2 * (i : ℚ) / ((n : ℚ) - 1)

/-- `_apply_vignette`: build a radial mask over normalized coordinates
spanning `[-1, 1]` on both axes, `mask = clip(1 - dist * intensity, 0, 1)`
with `dist = sqrt(X² + Y²)`, multiply every channel by the mask, clip and
truncate.  `np.sqrt` is modelled by `Real.sqrt`. -/
noncomputable def apply_vignette (img : Img) (intensity : ℚ) : Img :=
  { img with pix := fun x y c =>
      let X : ℚ := linspace11 img.width x
      let Y : ℚ := linspace11 img.height y
      let dist : ℝ := Real.sqrt ((X : ℝ) ^ 2 + (Y : ℝ) ^ 2)
      let mask : ℝ := max 0 (min 1 (1 - dist * (intensity : ℝ)))
      ⌊(max 0 (min 255 ((img.pix x y c : ℝ) * mask)))⌋ }

/-- Fog color `(245, 240, 230)` of `_apply_fade`, per channel. -/
def fogColor (c : ℕ) : ℚ := if c = 0 then 245 else if c = 1 then 240 else 230

/-- `_apply_fade`: blend every pixel toward the fixed warm-gray fog color
by `intensity`, clip and truncate. -/
def apply_fade (img : Img) (intensity : ℚ) : Img :=
  { img with pix := fun x y c =>
      ⌊clip255 ((img.pix x y c : ℚ) * (1 - intensity) + fogColor c * intensity)⌋ }

/-- `temporal_level: Union[int, float]` of `TemporalVisualProcessor.process`. -/
inductive Level where
  | int : ℤ → Level
  | float : ℚ → Level
deriving DecidableEq

/-- Parameter resolution of `process` (`visual.py`, lines 56–61): a float
with a fractional part is interpolated; otherwise the level is truncated
to an integer (`int(level)`, the identity on integer-valued levels) and
looked up in the epoch table. -/
def resolveParams : Level → Option VisualParams
  | .int n => get_epoch_params n
  | .float q => if q.den = 1 then get_epoch_params q.num else some (interpolate_epochs q)

/-- `TemporalVisualProcessor.process`: resolve parameters (explicit
`params` wins; `None` resolution returns the image untouched), convert to
RGB if needed, then conditionally apply the seven stages in order. -/
noncomputable def process (img : Img) (temporal_level : Level)
    (params : Option VisualParams) (η : NoiseField) : Img :=
  let p? : Option VisualParams :=
    match params with
    | some p => some p
    | none => resolveParams temporal_level
  match p? with
  | none => img
  | some p =>
    let img1 := if img.channels ≠ 3 then convertRGB img else img
    let r1 := if 0 < p.blur then apply_blur img1 p.blur else img1
    let r2 := if 0 < p.sepia then apply_sepia r1 p.sepia else r1
    let r3 := if p.saturation ≠ 1 then apply_saturation r2 p.saturation else r2
    let r4 := if p.contrast ≠ 1 then apply_contrast r3 p.contrast else r3
    let r5 := if 0 < p.noise then apply_noise r4 p.noise η else r4
    let r6 := if 0 < p.vignette then apply_vignette r5 p.vignette else r5
    let r7 := if 0 < p.fade then apply_fade r6 p.fade else r6
    r7

/-! ### Stage view of the pipeline -/

/-- The seven filter stages of the pipeline. -/
inductive Stage where
  | blur | sepia | saturation | contrast | noise | vignette | fade
deriving DecidableEq

/-- The fixed stage order of `process`. -/
def stageOrder : List Stage :=
  [.blur, .sepia, .saturation, .contrast, .noise, .vignette, .fade]

/-- The parameter field that triggers each stage. -/
def stageParam (p : VisualParams) : Stage → ℚ
  | .blur => p.blur
  | .sepia => p.sepia
  | .saturation => p.saturation
  | .contrast => p.contrast
  | .noise => p.noise
  | .vignette => p.vignette
  | .fade => p.fade

/-- The neutral value of each stage's triggering parameter. -/
def neutralValue : Stage → ℚ
  | .saturation => 1
  | .contrast => 1
  | _ => 0

/-- The stage guards of `process`, verbatim from the source. -/
def stageActive (p : VisualParams) : Stage → Bool
  | .blur => decide (0 < p.blur)
  | .sepia => decide (0 < p.sepia)
  | .saturation => decide (p.saturation ≠ 1)
  | .contrast => decide (p.contrast ≠ 1)
  | .noise => decide (0 < p.noise)
  | .vignette => decide (0 < p.vignette)
  | .fade => decide (0 < p.fade)

/-- One stage's transform. -/
noncomputable def applyStage (p : VisualParams) (η : NoiseField) (img : Img) :
    Stage → Img
  | .blur => apply_blur img p.blur
  | .sepia => apply_sepia img p.sepia
  | .saturation => apply_saturation img p.saturation
  | .contrast => apply_contrast img p.contrast
  | .noise => apply_noise img p.noise η
  | .vignette => apply_vignette img p.vignette
  | .fade => apply_fade img p.fade

/-- One step of the pipeline: apply the stage if its guard holds, else
leave the intermediate image unchanged. -/
noncomputable def runStage (p : VisualParams) (η : NoiseField) (img : Img)
    (s : Stage) : Img :=
  if stageActive p s then applyStage p η img s else img

/-! ## Soundscape generator (`chronoscope/processors/sound.py`) -/

/-- A temporal soundscape (`sound.py`, `Soundscape`). -/
structure Soundscape where
  epoch_level : ℤ
  epoch_name : String
  period : String
  elements : List String
  audio_prompt : String
  intensity : ℚ
  clarity : ℚ
deriving DecidableEq

/-- The quality descriptor chain of `_enhance_prompt` (`sound.py`). -/
def qualityFor (level : ℤ) : String :=
  if level = 0 then "crystal clear, high fidelity, present-day"
  else if level ≤ 2 then "slightly muffled, warm analog quality, nostalgic"
  else if level ≤ 4 then "distant, echoing, as if through old walls, ghostly"
  else "barely audible whispers, dreamlike, fragmentary, ancient"

/-- `SoundscapeGenerator._enhance_prompt`: append a quality descriptor, a
reverb percentage `min(level*15, 80)` and a low-pass cutoff
`max(20000 - level*3000, 2000)` Hz to the base prompt. -/
def enhance_prompt (base_prompt : String) (level : ℤ) : String :=
  let quality := qualityFor level
  let reverb : ℤ := min (level * 15) 80
  let lowpass : ℤ := max (20000 - level * 3000) 2000
  base_prompt ++ ". " ++ "Audio quality: " ++ quality ++ ". " ++
    "Processing: reverb " ++ toString reverb ++ "%, low-pass filter at " ++
    toString lowpass ++ "Hz, slight tape hiss and analog warmth."

/-- `SoundscapeGenerator.generate`: look up the epoch (falling back to
epoch 0 when the level is not in the table), derive intensity and clarity
from the *requested* level, and pick the element list by language. -/
def generate (language : String) (temporal_level : ℤ) : Soundscape :=
  let epoch := (EPOCHS temporal_level).getD epoch0
  let intensity : ℚ := 1 - (temporal_level : ℚ) * (12/100)
  let clarity : ℚ := 1 - (temporal_level : ℚ) * (15/100)
  { epoch_level := epoch.level
    epoch_name := if language = "fr" then epoch.name else epoch.name_en
    period := epoch.period
    elements := if language = "fr" then epoch.soundscape else epoch.soundscape_en
    audio_prompt := enhance_prompt epoch.audio_prompt temporal_level
    intensity := max (1/10) intensity
    clarity := max (1/10) clarity }

/-- A JSON-serializable value, for the dictionary of `to_dict`. -/
inductive JsonVal where
  | int : ℤ → JsonVal
  | str : String → JsonVal
  | strList : List String → JsonVal
  | num : ℚ → JsonVal
deriving DecidableEq

/-- `SoundscapeGenerator.to_dict`: export the soundscape as a dictionary
(an ordered key/value list), keys verbatim from the source. -/
def to_dict (language : String) (temporal_level : ℤ) : List (String × JsonVal) :=
  let s := generate language temporal_level
  [("epoch_level", .int s.epoch_level),
   ("epoch_name", .str s.epoch_name),
   ("period", .str s.period),
   ("elements", .strList s.elements),
   ("audio_prompt", .str s.audio_prompt),
   ("intensity", .num s.intensity),
   ("clarity", .num s.clarity)]

/-! ## Concrete inputs used by witnesses and counterexamples -/

/-- The all-defaults `VisualParams` record
(sepia = noise = vignette = fade = 0, saturation = contrast = 1, blur = 0). -/
def defaultParams : VisualParams :=
  { sepia := 0, blur := 0, noise := 0, vignette := 0, saturation := 1, contrast := 1, fade := 0 }

/-- A 2×2 3-channel (RGB) image with every channel at 100. -/
def exImg : Img := { width := 2, height := 2, channels := 3, pix := fun _ _ _ => 100 }

/-- A 2×2 single-channel (grayscale) image with every channel at 128. -/
def grayImg : Img := { width := 2, height := 2, channels := 1, pix := fun _ _ _ => 128 }

/-- A 1×1 3-channel image with every channel at 50. -/
def rgbImg : Img := { width := 1, height := 1, channels := 3, pix := fun _ _ _ => 50 }

/-- The all-zero noise field. -/
def zeroNoise : NoiseField := fun _ _ _ => 0

/-- The rational 7/2 = 3.5 in lowest terms (explicit numerator and
denominator, so that its denominator is computable by the kernel). -/
def levelThreeAndHalf : ℚ := ⟨7, 2, by norm_num, by norm_num [Nat.Coprime]⟩

/-- The rational 13/2 = 6.5 in lowest terms. -/
def levelSixAndHalf : ℚ := ⟨13, 2, by norm_num, by norm_num [Nat.Coprime]⟩

/-! ## Helper lemmas -/

/-- Keys outside 0–6 are absent from the epoch table. -/
lemma EPOCHS_none (n : ℤ) (h : n < 0 ∨ 6 < n) : EPOCHS n = none := by
  unfold EPOCHS
  split_ifs <;> first | rfl | omega

/-- Linear interpolation of non-negative endpoints with a weight in
`[0, 1]` is non-negative. -/
lemma lerp_nonneg {a b t : ℚ} (ha : 0 ≤ a) (hb : 0 ≤ b) (ht0 : 0 ≤ t) (ht1 : t ≤ 1) :
    0 ≤ lerp a b t := by
  unfold lerp; nlinarith

/-- Every table entry (and the fallback) has non-negative sepia, blur,
noise, vignette and fade parameters. -/
lemma epochVisualD_bounds (n : ℤ) :
    0 ≤ (epochVisualD n).sepia ∧ 0 ≤ (epochVisualD n).blur ∧ 0 ≤ (epochVisualD n).noise ∧
    0 ≤ (epochVisualD n).vignette ∧ 0 ≤ (epochVisualD n).fade := by
  unfold epochVisualD EPOCHS
  split_ifs <;>
    norm_num [epoch0, epoch1, epoch2, epoch3, epoch4, epoch5, epoch6]

/-- Interpolated parameters inherit non-negativity from the table. -/
lemma interpolate_nonneg (q : ℚ) :
    0 ≤ (interpolate_epochs q).sepia ∧ 0 ≤ (interpolate_epochs q).blur ∧
    0 ≤ (interpolate_epochs q).noise ∧ 0 ≤ (interpolate_epochs q).vignette ∧
    0 ≤ (interpolate_epochs q).fade := by
  have ht0 : 0 ≤ max 0 (min 6 q) - (⌊max 0 (min 6 q)⌋ : ℚ) := by
    have := Int.floor_le (max 0 (min 6 q)); linarith
  have ht1 : max 0 (min 6 q) - (⌊max 0 (min 6 q)⌋ : ℚ) ≤ 1 := by
    have := Int.lt_floor_add_one (max 0 (min 6 q)); linarith
  obtain ⟨a1, a2, a3, a4, a5⟩ := epochVisualD_bounds ⌊max 0 (min 6 q)⌋
  obtain ⟨b1, b2, b3, b4, b5⟩ := epochVisualD_bounds (min (⌊max 0 (min 6 q)⌋ + 1) 6)
  simp only [interpolate_epochs]
  exact ⟨lerp_nonneg a1 b1 ht0 ht1, lerp_nonneg a2 b2 ht0 ht1, lerp_nonneg a3 b3 ht0 ht1,
    lerp_nonneg a4 b4 ht0 ht1, lerp_nonneg a5 b5 ht0 ht1⟩

/-- A successful table lookup yields exactly the tabulated parameters. -/
lemma get_epoch_params_eq (n : ℤ) (q : VisualParams) (h : get_epoch_params n = some q) :
    q = epochVisualD n := by
  unfold get_epoch_params at h
  unfold epochVisualD
  rw [h]
  rfl

/-- Every resolved parameter record has non-negative sepia, blur, noise,
vignette and fade. -/
lemma resolveParams_nonneg (lvl : Level) (p : VisualParams) (h : resolveParams lvl = some p) :
    0 ≤ p.sepia ∧ 0 ≤ p.blur ∧ 0 ≤ p.noise ∧ 0 ≤ p.vignette ∧ 0 ≤ p.fade := by
  cases lvl with
  | int n =>
    simp only [resolveParams] at h
    exact (get_epoch_params_eq n p h) ▸ epochVisualD_bounds n
  | float q =>
    simp only [resolveParams] at h
    split_ifs at h with hd
    · exact (get_epoch_params_eq _ p h) ▸ epochVisualD_bounds _
    · obtain rfl : interpolate_epochs q = p := by injection h
      exact interpolate_nonneg q

/-- At an integer level in `[0, 6]`, interpolation hits the `t = 0` branch
and returns the tabulated parameters exactly. -/
lemma interpolate_int (k : ℤ) (h0 : 0 ≤ k) (h6 : k ≤ 6) :
    interpolate_epochs (k : ℚ) = epochVisualD k := by
  have hq0 : (0 : ℚ) ≤ (k : ℚ) := by exact_mod_cast h0
  have hq6 : (k : ℚ) ≤ 6 := by exact_mod_cast h6
  have hclamp : max 0 (min 6 (k : ℚ)) = (k : ℚ) := by
    rw [min_eq_right hq6, max_eq_right hq0]
  simp only [interpolate_epochs, hclamp, Int.floor_intCast, sub_self, lerp, mul_zero, add_zero]

/-- Levels at or below 0 clamp to epoch 0's parameters. -/
lemma interpolate_low (q : ℚ) (h : q ≤ 0) : interpolate_epochs q = epochVisualD 0 := by
  have hclamp : max 0 (min 6 q) = 0 := by
    rw [min_eq_right (le_trans h (by norm_num)), max_eq_left h]
  simp only [interpolate_epochs, hclamp, Int.floor_zero, Int.cast_zero, sub_self, lerp,
    mul_zero, add_zero]

/-- Levels at or above 6 clamp to epoch 6's parameters. -/
lemma interpolate_high (q : ℚ) (h : 6 ≤ q) : interpolate_epochs q = epochVisualD 6 := by
  have hclamp : max 0 (min 6 q) = 6 := by
    rw [min_eq_left h, max_eq_right (by norm_num : (0 : ℚ) ≤ 6)]
  have hfl : ⌊(6 : ℚ)⌋ = 6 := by norm_num
  simp only [interpolate_epochs, hclamp, hfl, lerp]
  norm_num

/-- With resolved parameters, `process` is the fold of the conditional
stages, in the fixed order, over the RGB-converted input. -/
lemma process_eq_pipeline (img : Img) (lvl : Level) (params : Option VisualParams)
    (η : NoiseField) (p : VisualParams)
    (h : params = some p ∨ (params = none ∧ resolveParams lvl = some p)) :
    process img lvl params η =
      stageOrder.foldl (runStage p η) (if img.channels ≠ 3 then convertRGB img else img) := by
  rcases h with rfl | ⟨rfl, h2⟩
  · simp only [process, stageOrder, List.foldl_cons, List.foldl_nil, runStage, stageActive,
      applyStage, decide_eq_true_eq]
  · simp only [process, h2, stageOrder, List.foldl_cons, List.foldl_nil, runStage, stageActive,
      applyStage, decide_eq_true_eq]

/-- Every single pipeline step preserves width, height and channel count. -/
lemma runStage_shape (p : VisualParams) (η : NoiseField) (img : Img) (s : Stage) :
    (runStage p η img s).width = img.width ∧ (runStage p η img s).height = img.height ∧
    (runStage p η img s).channels = img.channels := by
  cases s <;> unfold runStage applyStage <;> split_ifs <;> exact ⟨rfl, rfl, rfl⟩

/-- Folding pipeline steps preserves width, height and channel count. -/
lemma foldl_runStage_shape (p : VisualParams) (η : NoiseField) :
    ∀ (l : List Stage) (img : Img),
    (l.foldl (runStage p η) img).width = img.width ∧
    (l.foldl (runStage p η) img).height = img.height ∧
    (l.foldl (runStage p η) img).channels = img.channels
  | [], _ => ⟨rfl, rfl, rfl⟩
  | s :: l, img => by
    obtain ⟨h1, h2, h3⟩ := foldl_runStage_shape p η l (runStage p η img s)
    obtain ⟨g1, g2, g3⟩ := runStage_shape p η img s
    exact ⟨by rw [List.foldl_cons, h1, g1], by rw [List.foldl_cons, h2, g2],
      by rw [List.foldl_cons, h3, g3]⟩

/-- The RGB-conversion guard preserves width and height and always leaves
exactly 3 channels. -/
lemma convert_shape (img : Img) :
    (if img.channels ≠ 3 then convertRGB img else img).width = img.width ∧
    (if img.channels ≠ 3 then convertRGB img else img).height = img.height ∧
    (if img.channels ≠ 3 then convertRGB img else img).channels = 3 := by
  split_ifs with h
  · exact ⟨rfl, rfl, rfl⟩
  · exact ⟨rfl, rfl, not_ne_iff.mp h⟩

/-! ## Claim theorems -/

/-- C1: for every input image and every resolved `VisualParams` record,
`process` is exactly the fold of the seven stages in the fixed order
blur, sepia, saturation, contrast, noise, vignette, fade (`stageOrder`);
a stage is skipped if and only if its triggering parameter equals its
neutral value (blur = 0, sepia = 0, saturation = 1, contrast = 1,
noise = 0, vignette = 0, fade = 0); and a skipped stage leaves the
intermediate image unchanged. -/
theorem claim1_pipeline_order_and_skip (lvl : Level) (p : VisualParams)
    (h : resolveParams lvl = some p) :
    (∀ (img : Img) (η : NoiseField), process img lvl none η =
      stageOrder.foldl (runStage p η) (if img.channels ≠ 3 then convertRGB img else img)) ∧
    (∀ s : Stage, stageActive p s = false ↔ stageParam p s = neutralValue s) ∧
    (∀ (img : Img) (η : NoiseField) (s : Stage), stageActive p s = false →
      runStage p η img s = img) := by
  obtain ⟨hs, hb, hn, hv, hf⟩ := resolveParams_nonneg lvl p h
  refine ⟨fun img η => process_eq_pipeline img lvl none η p (Or.inr ⟨rfl, h⟩), ?_, ?_⟩
  · intro s
    cases s <;>
      simp only [stageActive, stageParam, neutralValue, decide_eq_false_iff_not, not_lt,
        ne_eq, not_not, decide_not, Bool.not_eq_false', decide_eq_true_eq]
    · exact ⟨fun h' => le_antisymm h' hb, fun h' => le_of_eq h'⟩
    · exact ⟨fun h' => le_antisymm h' hs, fun h' => le_of_eq h'⟩
    · exact ⟨fun h' => le_antisymm h' hn, fun h' => le_of_eq h'⟩
    · exact ⟨fun h' => le_antisymm h' hv, fun h' => le_of_eq h'⟩
    · exact ⟨fun h' => le_antisymm h' hf, fun h' => le_of_eq h'⟩
  · intro img η s hna
    unfold runStage
    rw [hna]
    rfl

/-- Witness for C1 at level 0 (all of whose parameters are neutral). -/
theorem claim1_witness :
    (process exImg (Level.int 0) none zeroNoise =
      stageOrder.foldl (runStage epoch0.visual zeroNoise)
        (if exImg.channels ≠ 3 then convertRGB exImg else exImg)) ∧
    (stageActive epoch0.visual Stage.fade = false ↔
      stageParam epoch0.visual Stage.fade = neutralValue Stage.fade) ∧
    runStage epoch0.visual zeroNoise exImg Stage.fade = exImg := by
  obtain ⟨h1, h2, h3⟩ := claim1_pipeline_order_and_skip (Level.int 0) epoch0.visual rfl
  exact ⟨h1 exImg zeroNoise, h2 Stage.fade, h3 exImg zeroNoise Stage.fade (by decide)⟩

/-- C2: with the all-defaults `VisualParams` — which are exactly epoch 0's
parameters — the pipeline is the identity on every 3-channel RGB image:
every pixel of the output equals the corresponding pixel of the input,
whether the defaults are passed explicitly or resolved from level 0. -/
theorem claim2_level0_identity (img : Img) (η : NoiseField) (lvl : Level)
    (h3 : img.channels = 3) :
    get_epoch_params 0 = some defaultParams ∧
    process img lvl (some defaultParams) η = img ∧
    process img (Level.int 0) none η = img ∧
    (∀ x y c, (process img (Level.int 0) none η).pix x y c = img.pix x y c) := by
  have hid : process img (Level.int 0) none η = img := by
    have h0 : resolveParams (Level.int 0) = some defaultParams := rfl
    simp only [process, h0]
    norm_num [h3, defaultParams]
  refine ⟨rfl, ?_, hid, fun x y c => by rw [hid]⟩
  simp only [process]
  norm_num [h3, defaultParams]

/-- Witness for C2 on a concrete 2×2 RGB image. -/
theorem claim2_witness :
    get_epoch_params 0 = some defaultParams ∧
    process exImg (Level.int 5) (some defaultParams) zeroNoise = exImg ∧
    process exImg (Level.int 0) none zeroNoise = exImg ∧
    (∀ x y c, (process exImg (Level.int 0) none zeroNoise).pix x y c = exImg.pix x y c) :=
  claim2_level0_identity exImg zeroNoise (Level.int 5) rfl

/-- C3: the interpolator agrees exactly with the epoch table at integer
levels in `[0, 6]` (the `t = 0` branch), returns epoch 0's parameters for
every level at or below 0 and epoch 6's for every level at or above 6
(clamping precedes bracket selection), so `interpolate_epochs (-5)` equals
`interpolate_epochs 0` and `interpolate_epochs 100` equals
`interpolate_epochs 6`. -/
theorem claim3_interpolation_exact :
    (∀ k : ℤ, 0 ≤ k → k ≤ 6 →
      interpolate_epochs (k : ℚ) = epochVisualD k ∧
      get_epoch_params k = some (epochVisualD k)) ∧
    (∀ q : ℚ, q ≤ 0 → interpolate_epochs q = epochVisualD 0) ∧
    (∀ q : ℚ, 6 ≤ q → interpolate_epochs q = epochVisualD 6) ∧
    interpolate_epochs (-5) = interpolate_epochs 0 ∧
    interpolate_epochs 100 = interpolate_epochs 6 := by
  refine ⟨?_, interpolate_low, interpolate_high, ?_, ?_⟩
  · intro k h0 h6
    refine ⟨interpolate_int k h0 h6, ?_⟩
    interval_cases k <;> rfl
  · rw [interpolate_low (-5) (by norm_num), interpolate_low 0 le_rfl]
  · rw [interpolate_high 100 (by norm_num), interpolate_high 6 le_rfl]

/-- Witness for C3 at levels 3, -7 and 9. -/
theorem claim3_witness :
    (interpolate_epochs ((3 : ℤ) : ℚ) = epochVisualD 3 ∧
      get_epoch_params 3 = some (epochVisualD 3)) ∧
    interpolate_epochs (-7) = epochVisualD 0 ∧
    interpolate_epochs 9 = epochVisualD 6 :=
  ⟨claim3_interpolation_exact.1 3 (by norm_num) (by norm_num),
   claim3_interpolation_exact.2.1 (-7) (by norm_num),
   claim3_interpolation_exact.2.2.1 9 (by norm_num)⟩

/-- C4: epoch lookup succeeds exactly on the integers 0–6 — there it
returns an epoch with non-empty names and descriptions (and a fully
populated `VisualParams`, guaranteed by the record type) — and returns
`none` for every other level, integer or fractional, without raising and
without clamping. -/
theorem claim4_lookup_iff_in_range :
    (∀ n : ℤ, 0 ≤ n → n ≤ 6 → ∃ e, get_epoch_by_level n = some e ∧
      e.name ≠ "" ∧ e.name_en ≠ "" ∧ e.description ≠ "" ∧ e.description_en ≠ "") ∧
    (∀ n : ℤ, n < 0 ∨ 6 < n → get_epoch_by_level n = none) ∧
    (∀ q : ℚ, q.den ≠ 1 → get_epoch_by_level_real q = none) := by
  refine ⟨?_, ?_, ?_⟩
  · intro n h0 h6
    interval_cases n <;> exact ⟨_, rfl, by decide, by decide, by decide, by decide⟩
  · intro n h
    exact EPOCHS_none n h
  · intro q hd
    unfold get_epoch_by_level_real
    rw [if_neg hd]

/-- Witness for C4 at levels 3, 7 and 3.5. -/
theorem claim4_witness :
    (∃ e, get_epoch_by_level 3 = some e ∧
      e.name ≠ "" ∧ e.name_en ≠ "" ∧ e.description ≠ "" ∧ e.description_en ≠ "") ∧
    get_epoch_by_level 7 = none ∧
    get_epoch_by_level_real levelThreeAndHalf = none :=
  ⟨claim4_lookup_iff_in_range.1 3 (by norm_num) (by norm_num),
   claim4_lookup_iff_in_range.2.1 7 (by norm_num),
   claim4_lookup_iff_in_range.2.2 levelThreeAndHalf (by decide)⟩

/-- C5 counterexample: the claim fails as stated — for a 1-channel image
at integer level 7 the parameter lookup fails, `process` returns the
input before the RGB conversion runs, and the output has 1 channel, not
3. -/
theorem claim5_counterexample :
    (process grayImg (Level.int 7) none zeroNoise).channels = 1 ∧
    (process grayImg (Level.int 7) none zeroNoise).channels ≠ 3 := by
  exact ⟨rfl, by decide⟩

/-- C5 (amended): for every input image with 1, 3 or 4 channels and every
call whose parameters resolve (explicit `params`, or a level whose
resolution succeeds), the output has exactly 3 channels and the input's
width and height; the conversion to RGB happens before any stage runs. -/
theorem claim5_shape_when_params_resolve (img : Img) (lvl : Level)
    (params : Option VisualParams) (η : NoiseField) (p : VisualParams)
    (_hch : img.channels = 1 ∨ img.channels = 3 ∨ img.channels = 4)
    (hres : params = some p ∨ (params = none ∧ resolveParams lvl = some p)) :
    (process img lvl params η).channels = 3 ∧
    (process img lvl params η).width = img.width ∧
    (process img lvl params η).height = img.height := by
  have he := process_eq_pipeline img lvl params η p hres
  obtain ⟨w1, h1, c1⟩ := foldl_runStage_shape p η stageOrder
    (if img.channels ≠ 3 then convertRGB img else img)
  obtain ⟨w2, h2, c2⟩ := convert_shape img
  rw [he]
  exact ⟨by rw [c1, c2], by rw [w1, w2], by rw [h1, h2]⟩

/-- Witness for the amended C5: a grayscale image at level 3 comes out
3-channel at the same size. -/
theorem claim5_witness :
    (process grayImg (Level.int 3) none zeroNoise).channels = 3 ∧
    (process grayImg (Level.int 3) none zeroNoise).width = grayImg.width ∧
    (process grayImg (Level.int 3) none zeroNoise).height = grayImg.height :=
  claim5_shape_when_params_resolve grayImg (Level.int 3) none zeroNoise epoch3.visual
    (Or.inl rfl) (Or.inr ⟨rfl, rfl⟩)

/-- C6: for every image, every positive sepia intensity and every pixel,
the sepia stage computes `clamp(M · [R,G,B]ᵀ, 0, 255)` with the fixed
row-major matrix `[[0.393, 0.769, 0.189], [0.349, 0.686, 0.168],
[0.272, 0.534, 0.131]]` and outputs
`clamp((1-s)·original + s·sepia_pixel, 0, 255)` truncated to the integer
channel range. -/
theorem claim6_sepia_formula (img : Img) (s : ℚ) (x y c : ℕ)
    (_hc : c < 3) (_hs : 0 < s) :
    (sepiaRow 0 = (393/1000, 769/1000, 189/1000) ∧
     sepiaRow 1 = (349/1000, 686/1000, 168/1000) ∧
     sepiaRow 2 = (272/1000, 534/1000, 131/1000)) ∧
    (apply_sepia img s).pix x y c =
      ⌊max 0 (min 255 ((1 - s) * (img.pix x y c : ℚ) +
        s * max 0 (min 255 ((sepiaRow c).1 * (img.pix x y 0 : ℚ) +
          (sepiaRow c).2.1 * (img.pix x y 1 : ℚ) +
          (sepiaRow c).2.2 * (img.pix x y 2 : ℚ)))))⌋ := by
  refine ⟨⟨rfl, rfl, rfl⟩, ?_⟩
  simp only [apply_sepia, clip255]
  congr 1
  ring_nf

/-- Witness for C6 at intensity 1/2 on the red channel of a concrete
pixel. -/
theorem claim6_witness :
    (sepiaRow 0 = (393/1000, 769/1000, 189/1000) ∧
     sepiaRow 1 = (349/1000, 686/1000, 168/1000) ∧
     sepiaRow 2 = (272/1000, 534/1000, 131/1000)) ∧
    (apply_sepia exImg (1/2)).pix 0 0 0 =
      ⌊max 0 (min 255 ((1 - (1/2 : ℚ)) * (exImg.pix 0 0 0 : ℚ) +
        (1/2 : ℚ) * max 0 (min 255 ((sepiaRow 0).1 * (exImg.pix 0 0 0 : ℚ) +
          (sepiaRow 0).2.1 * (exImg.pix 0 0 1 : ℚ) +
          (sepiaRow 0).2.2 * (exImg.pix 0 0 2 : ℚ)))))⌋ :=
  claim6_sepia_formula exImg (1/2) 0 0 0 (by norm_num) (by norm_num)

/-- C7 counterexample: the claim fails as stated — an integer level 7 is
not clamped before parameter resolution (resolution yields `none`, not
epoch 6's parameters) and the image is returned unprocessed rather than
transformed via a fallback. -/
theorem claim7_counterexample :
    resolveParams (Level.int 7) = none ∧
    (none : Option VisualParams) ≠ some (epochVisualD 6) ∧
    process rgbImg (Level.int 7) none zeroNoise = rgbImg := by
  exact ⟨rfl, by simp, rfl⟩

/-- C7 (amended): only levels passed as non-integer reals are clamped into
`[0, 6]` (through interpolation, so e.g. level 6.5 resolves to epoch 6's
parameters and level -0.5 to epoch 0's); an integer-valued level outside
`[0, 6]` fails the table lookup and `process` returns the input image
unchanged; the fall-back to the default epoch 0 on a failed lookup is the
soundscape generator's behavior, not the visual pipeline's. -/
theorem claim7_clamping_only_for_fractional_levels :
    (∀ q : ℚ, q.den ≠ 1 → resolveParams (Level.float q) = some (interpolate_epochs q)) ∧
    (∀ q : ℚ, 6 ≤ q → interpolate_epochs q = epochVisualD 6) ∧
    (∀ q : ℚ, q ≤ 0 → interpolate_epochs q = epochVisualD 0) ∧
    (∀ n : ℤ, n < 0 ∨ 6 < n → ∀ (img : Img) (η : NoiseField),
      process img (Level.int n) none η = img) ∧
    (∀ n : ℤ, n < 0 ∨ 6 < n → ∀ lang : String, (generate lang n).epoch_level = 0) := by
  refine ⟨?_, interpolate_high, interpolate_low, ?_, ?_⟩
  · intro q hd
    simp only [resolveParams, if_neg hd]
  · intro n h img η
    have hr : resolveParams (Level.int n) = none := by
      simp only [resolveParams, get_epoch_params, EPOCHS_none n h, Option.map_none']
    simp only [process, hr]
  · intro n h lang
    simp [generate, EPOCHS_none n h, epoch0]

/-- Witness for the amended C7 at levels 6.5, -2 and 7. -/
theorem claim7_witness :
    resolveParams (Level.float levelSixAndHalf) = some (interpolate_epochs levelSixAndHalf) ∧
    interpolate_epochs levelSixAndHalf = epochVisualD 6 ∧
    interpolate_epochs (-2) = epochVisualD 0 ∧
    process rgbImg (Level.int 7) none zeroNoise = rgbImg ∧
    (generate "fr" 7).epoch_level = 0 :=
  ⟨claim7_clamping_only_for_fractional_levels.1 levelSixAndHalf (by decide),
   claim7_clamping_only_for_fractional_levels.2.1 levelSixAndHalf (by decide),
   claim7_clamping_only_for_fractional_levels.2.2.1 (-2) (by norm_num),
   claim7_clamping_only_for_fractional_levels.2.2.2.1 7 (by norm_num) rgbImg zeroNoise,
   claim7_clamping_only_for_fractional_levels.2.2.2.2 7 (by norm_num) "fr"⟩

/-- C8 counterexample: the claim fails as stated — the serialized record's
field names are not `level`, `name`, `period`, `elements`, `prompt`,
`intensity`, `clarity` (already at level 0 the keys differ). -/
theorem claim8_counterexample :
    (to_dict "en" 0).map Prod.fst ≠
      ["level", "name", "period", "elements", "prompt", "intensity", "clarity"] := by
  decide

/-- C8 (amended): for every integer level in `[0, 6]`, the serialized
soundscape record has exactly the field names `epoch_level`, `epoch_name`,
`period`, `elements`, `audio_prompt`, `intensity`, `clarity`, in that
order — this is the stable contract external consumers rely on. -/
theorem claim8_dict_field_names (lang : String) (n : ℤ) (_h0 : 0 ≤ n) (_h6 : n ≤ 6) :
    (to_dict lang n).map Prod.fst =
      ["epoch_level", "epoch_name", "period", "elements", "audio_prompt", "intensity",
       "clarity"] := by
  rfl

/-- Witness for the amended C8 at level 2. -/
theorem claim8_witness :
    (to_dict "en" 2).map Prod.fst =
      ["epoch_level", "epoch_name", "period", "elements", "audio_prompt", "intensity",
       "clarity"] :=
  claim8_dict_field_names "en" 2 (by norm_num) (by norm_num)

/-- C9: for every integer level in `[0, 6]`, the generated soundscape has
`intensity = max(0.1, 1 - level·0.12)` and
`clarity = max(0.1, 1 - level·0.15)`; the enhanced audio prompt textually
encodes the reverb percentage `min(level·15, 80)` and the low-pass cutoff
`max(20000 - level·3000, 2000)` Hz; and intensity and clarity are
monotonically non-increasing in the level, bottoming out at 0.1 (clarity
reaches exactly 0.1 at level 6). -/
theorem claim9_intensity_clarity_prompt (lang : String) (n m : ℤ)
    (_hn0 : 0 ≤ n) (_hn6 : n ≤ 6) (_hm0 : 0 ≤ m) (_hm6 : m ≤ 6) (hnm : n ≤ m) :
    (generate lang n).intensity = max (1/10) (1 - (n : ℚ) * (12/100)) ∧
    (generate lang n).clarity = max (1/10) (1 - (n : ℚ) * (15/100)) ∧
    (generate lang n).audio_prompt =
      ((EPOCHS n).getD epoch0).audio_prompt ++ ". " ++ "Audio quality: " ++ qualityFor n ++
      ". " ++ "Processing: reverb " ++ toString (min (n * 15) 80) ++
      "%, low-pass filter at " ++ toString (max (20000 - n * 3000) 2000) ++
      "Hz, slight tape hiss and analog warmth." ∧
    (generate lang m).intensity ≤ (generate lang n).intensity ∧
    (generate lang m).clarity ≤ (generate lang n).clarity ∧
    (1/10 : ℚ) ≤ (generate lang n).intensity ∧
    (1/10 : ℚ) ≤ (generate lang n).clarity ∧
    (generate lang 6).clarity = 1/10 := by
  have hcast : (n : ℚ) ≤ (m : ℚ) := by exact_mod_cast hnm
  refine ⟨rfl, rfl, rfl, ?_, ?_, le_max_left _ _, le_max_left _ _, ?_⟩
  · apply max_le_max le_rfl
    nlinarith
  · apply max_le_max le_rfl
    nlinarith
  · norm_num [generate]

/-- Witness for C9 at levels 2 and 5. -/
theorem claim9_witness :
    (generate "en" 2).intensity = max (1/10) (1 - (2 : ℚ) * (12/100)) ∧
    (generate "en" 2).audio_prompt =
      ((EPOCHS 2).getD epoch0).audio_prompt ++ ". " ++ "Audio quality: " ++ qualityFor 2 ++
      ". " ++ "Processing: reverb " ++ toString (min (2 * 15 : ℤ) 80) ++
      "%, low-pass filter at " ++ toString (max (20000 - 2 * 3000 : ℤ) 2000) ++
      "Hz, slight tape hiss and analog warmth." ∧
    (generate "en" 5).intensity ≤ (generate "en" 2).intensity ∧
    (generate "en" 5).clarity ≤ (generate "en" 2).clarity ∧
    (generate "en" 6).clarity = 1/10 := by
  obtain ⟨h1, _, h3, h4, h5, _, _, h8⟩ :=
    claim9_intensity_clarity_prompt "en" 2 5 (by norm_num) (by norm_num) (by norm_num)
      (by norm_num) (by norm_num)
  exact ⟨by exact_mod_cast h1, h3, h4, h5, h8⟩

/-- C10: for every integer level outside `[0, 6]`, `generate` returns (it
is a total function, so it never raises) a soundscape whose level, name,
period and elements come from epoch 0, while intensity and clarity are
still computed from the raw requested level before the fallback:
`generate 10` reports epoch 0 with intensity and clarity 0.1, and
`generate (-1)` reports epoch 0 with intensity 1.12 and clarity 1.15,
both exceeding the documented 0–1 range. -/
theorem claim10_out_of_range_fallback (lang : String) (n : ℤ) (h : n < 0 ∨ 6 < n) :
    (generate lang n).epoch_level = 0 ∧
    (generate lang n).epoch_name = (if lang = "fr" then epoch0.name else epoch0.name_en) ∧
    (generate lang n).period = epoch0.period ∧
    (generate lang n).elements =
      (if lang = "fr" then epoch0.soundscape else epoch0.soundscape_en) ∧
    (generate lang n).intensity = max (1/10) (1 - (n : ℚ) * (12/100)) ∧
    (generate lang n).clarity = max (1/10) (1 - (n : ℚ) * (15/100)) ∧
    (generate lang 10).intensity = 1/10 ∧
    (generate lang 10).clarity = 1/10 ∧
    (generate lang (-1)).intensity = 28/25 ∧
    (generate lang (-1)).clarity = 23/20 ∧
    (1 : ℚ) < (generate lang (-1)).intensity ∧
    (1 : ℚ) < (generate lang (-1)).clarity := by
  have he := EPOCHS_none n h
  have h10 := EPOCHS_none 10 (by norm_num)
  have hm1 := EPOCHS_none (-1) (by norm_num)
  refine ⟨?_, ?_, ?_, ?_, rfl, rfl, ?_, ?_, ?_, ?_, ?_, ?_⟩
  · simp [generate, he, epoch0]
  · simp [generate, he]
  · simp [generate, he]
  · simp [generate, he]
  · norm_num [generate, h10]
  · norm_num [generate, h10]
  · norm_num [generate, hm1]
  · norm_num [generate, hm1]
  · norm_num [generate, hm1]
  · norm_num [generate, hm1]

/-- Witness for C10 at level 10. -/
theorem claim10_witness :
    (generate "en" 10).epoch_level = 0 ∧
    (generate "en" 10).period = epoch0.period ∧
    (generate "en" 10).intensity = 1/10 ∧
    (generate "en" (-1)).intensity = 28/25 := by
  obtain ⟨h1, _, h3, _, _, _, h7, _, h9, _⟩ :=
    claim10_out_of_range_fallback "en" 10 (Or.inr (by norm_num))
  exact ⟨h1, h3, h7, h9⟩

end Chronoscope
